import Mathlib

/-!
Verification development for the skyfi-ecvi company-verification engine.

Each definition is a shallow embedding of a function of the Python source
(`backend/app/...`), translated directly from the code: machine integers are
modelled as `Int`, Python floats as `ℚ` (exact rational arithmetic), Python
`None`-able values as `Option`, raised exceptions as `Except`/`Option`
results, and the SQLAlchemy session as explicit list-valued state.
-/

namespace SkyfiEcvi

/-- Python `int(x)` applied to a float/rational: truncation toward zero
(the numerator-by-denominator truncated division of the reduced fraction). -/
def pyTrunc (q : ℚ) : ℤ :=
  Int.tdiv q.num (q.den : ℤ)

/-! ## Risk calculator (`backend/app/services/risk_calculator.py`) -/

/-- `RiskCategory` enumeration from `app/models/verification_result.py`. -/
inductive RiskCategory where
  | LOW
  | MEDIUM
  | HIGH
deriving DecidableEq, Repr

/-- The five class-level weight constants of `RiskCalculator`. -/
structure RiskWeights where
  dns : ℤ
  registration : ℤ
  contact : ℤ
  domain : ℤ
  cross_source : ℤ
deriving DecidableEq, Repr

/-- The `breakdown` dictionary returned by `calculate_overall_risk`. -/
structure RiskBreakdown where
  dns_risk : ℤ
  registration_risk : ℤ
  contact_risk : ℤ
  domain_risk : ℤ
  cross_source_risk : ℤ
  weights : RiskWeights
deriving DecidableEq, Repr

/-- The dictionary returned by `calculate_overall_risk`. -/
structure RiskResult where
  risk_score : ℤ
  risk_category : RiskCategory
  breakdown : RiskBreakdown
deriving DecidableEq, Repr

/-- `RiskCalculator.DNS_WEIGHT`. -/
def DNS_WEIGHT : ℤ := 25

/-- `RiskCalculator.REGISTRATION_CONSISTENCY_WEIGHT`. -/
def REGISTRATION_CONSISTENCY_WEIGHT : ℤ := 25

/-- `RiskCalculator.CONTACT_VALIDATION_WEIGHT`. -/
def CONTACT_VALIDATION_WEIGHT : ℤ := 20

/-- `RiskCalculator.DOMAIN_AUTHENTICITY_WEIGHT`. -/
def DOMAIN_AUTHENTICITY_WEIGHT : ℤ := 15

/-- `RiskCalculator.CROSS_SOURCE_VALIDATION_WEIGHT`. -/
def CROSS_SOURCE_VALIDATION_WEIGHT : ℤ := 15

/-- `RiskCalculator.calculate_dns_risk`. -/
def calculate_dns_risk (dns_verified : Bool) (domain_age_days : Option ℤ) : ℤ :=
  if !dns_verified then 100
  else
    match domain_age_days with
    | none => 50
    | some d =>
      if d < 30 then 80
      else if d < 90 then 60
      else if d < 365 then 30
      else 10

/-- `RiskCalculator.calculate_registration_consistency_risk`
(Python `/` is float division, modelled exactly over `ℚ`). -/
def calculate_registration_consistency_risk
    (registration_matches : ℤ) (total_sources : ℤ) : ℤ :=
  if total_sources = 0 then 70
  else
    let matchFrac : ℚ := (registration_matches : ℚ) / (total_sources : ℚ)
    if matchFrac ≥ 9/10 then 10
    else if matchFrac ≥ 7/10 then 30
    else if matchFrac ≥ 1/2 then 60
    else 90

/-- `RiskCalculator.calculate_contact_validation_risk`. -/
def calculate_contact_validation_risk
    (email_valid phone_valid : Bool)
    (email_exists phone_carrier_valid : Option Bool) : ℤ :=
  let risk : ℤ := 0
  let risk : ℤ :=
    if !email_valid then risk + 40
    else if email_exists = some false then risk + 30
    else if email_exists = some true then risk - 10
    else risk
  let risk : ℤ :=
    if !phone_valid then risk + 40
    else if phone_carrier_valid = some false then risk + 20
    else if phone_carrier_valid = some true then risk - 10
    else risk
  min 100 (max 0 risk)

/-- `RiskCalculator.calculate_domain_authenticity_risk`. -/
def calculate_domain_authenticity_risk
    (domain_matches_company : Bool) (ssl_valid : Option Bool)
    (suspicious_keywords : ℤ) : ℤ :=
  let risk : ℤ := if !domain_matches_company then 50 else 0
  let risk : ℤ :=
    if ssl_valid = some false then risk + 30
    else if ssl_valid = some true then max 0 (risk - 15)
    else risk
  let risk : ℤ := risk + min 30 (suspicious_keywords * 10)
  min 100 (max 0 risk)

/-- `RiskCalculator.calculate_cross_source_validation_risk`
(floats modelled over `ℚ`; Python `int(...)` is `pyTrunc`). -/
def calculate_cross_source_validation_risk
    (data_consistency_score source_reliability_avg : ℚ) : ℤ :=
  let consistency_risk : ℚ := (1 - data_consistency_score) * 60
  let reliability_risk : ℚ := (1 - source_reliability_avg) * 40
  let total_risk : ℚ := consistency_risk + reliability_risk
  min 100 (max 0 (pyTrunc total_risk))

/-- `RiskCalculator.calculate_overall_risk` (Python integer `//` is
floor division, `Int.fdiv`). -/
def calculate_overall_risk
    (dns_verified : Bool) (domain_age_days : Option ℤ)
    (registration_matches : ℤ) (total_sources : ℤ)
    (email_valid phone_valid : Bool)
    (email_exists phone_carrier_valid : Option Bool)
    (domain_matches_company : Bool) (ssl_valid : Option Bool)
    (suspicious_keywords : ℤ)
    (data_consistency_score source_reliability_avg : ℚ) : RiskResult :=
  let dns_risk := calculate_dns_risk dns_verified domain_age_days
  let registration_risk :=
    calculate_registration_consistency_risk registration_matches total_sources
  let contact_risk :=
    calculate_contact_validation_risk email_valid phone_valid
      email_exists phone_carrier_valid
  let domain_risk :=
    calculate_domain_authenticity_risk domain_matches_company ssl_valid
      suspicious_keywords
  let cross_source_risk :=
    calculate_cross_source_validation_risk data_consistency_score
      source_reliability_avg
  let overall_score : ℤ :=
    Int.fdiv
      (dns_risk * DNS_WEIGHT +
       registration_risk * REGISTRATION_CONSISTENCY_WEIGHT +
       contact_risk * CONTACT_VALIDATION_WEIGHT +
       domain_risk * DOMAIN_AUTHENTICITY_WEIGHT +
       cross_source_risk * CROSS_SOURCE_VALIDATION_WEIGHT) 100
  let category : RiskCategory :=
    if overall_score ≤ 30 then .LOW
    else if overall_score ≤ 70 then .MEDIUM
    else .HIGH
  { risk_score := min 100 (max 0 overall_score)
    risk_category := category
    breakdown :=
      { dns_risk := dns_risk
        registration_risk := registration_risk
        contact_risk := contact_risk
        domain_risk := domain_risk
        cross_source_risk := cross_source_risk
        weights :=
          { dns := DNS_WEIGHT
            registration := REGISTRATION_CONSISTENCY_WEIGHT
            contact := CONTACT_VALIDATION_WEIGHT
            domain := DOMAIN_AUTHENTICITY_WEIGHT
            cross_source := CROSS_SOURCE_VALIDATION_WEIGHT } } }

/-! ## Field validators (`backend/app/utils/validators.py`) -/

/-- The character class stripped by `validate_phone`'s
`re.sub(r'[\s\-\(\)\+]', '', phone)`: whitespace, hyphen, parentheses and
plus signs, wherever they occur. -/
def pySep (c : Char) : Bool :=
  c.isWhitespace || c = '-' || c = '(' || c = ')' || c = '+'

/-- `if cleaned.startswith('+'): cleaned = cleaned[1:]` from `validate_phone`
(dead code in the source, since `'+'` was already removed by the `re.sub`). -/
def stripLeadingPlus (l : List Char) : List Char :=
  match l with
  | [] => []
  | c :: rest => if c = '+' then rest else c :: rest

/-- `validate_phone` from `app/utils/validators.py`. Python's
`cleaned.isdigit()` is false for the empty string and true when every
character is a digit (str.isdigit also accepts some non-ASCII digit
characters; digits are modelled here as ASCII digits). -/
def validate_phone (phone : String) : Bool × Option String :=
  if phone = "" then (false, some "Phone number is required")
  else
    let cleaned := phone.toList.filter (fun c => !(pySep c))
    let cleaned := stripLeadingPlus cleaned
    if cleaned.isEmpty || !(cleaned.all Char.isDigit) then
      (false, some "Phone number must contain only digits")
    else if cleaned.length < 7 || 15 < cleaned.length then
      (false, some "Phone number length invalid")
    else
      (true, none)

/-- The separator class of the claim's reading: whitespace, hyphen and
parentheses, but not `'+'`. -/
def specSep (c : Char) : Bool :=
  c.isWhitespace || c = '-' || c = '(' || c = ')'

/-- Modelled from the spec: validity as the claim words it — strip separator
characters and an optional LEADING `'+'` only, then require the remainder to
be all digits with length between 7 and 15. Used to compare the claim's
reading against `validate_phone`. -/
def spec_phone_valid (phone : String) : Bool :=
  let stripped := stripLeadingPlus (phone.toList.filter (fun c => !(specSep c)))
  !stripped.isEmpty && stripped.all Char.isDigit &&
    decide (7 ≤ stripped.length) && decide (stripped.length ≤ 15)

/-- Python `str.upper()` over the characters of a string (ASCII case map). -/
def upperChars (l : List Char) : List Char :=
  l.map Char.toUpper

/-- Python `str.strip()`: drop leading and trailing whitespace. -/
def trimChars (l : List Char) : List Char :=
  ((l.dropWhile Char.isWhitespace).reverse.dropWhile Char.isWhitespace).reverse

/-- Python `str.split()` with no argument: split on whitespace runs,
discarding empty pieces. -/
def wordsChars (l : List Char) : List (List Char) :=
  (List.splitOnP Char.isWhitespace l).filter (fun w => w ≠ [])

/-- Python `" ".join(...)` over a word list. -/
def joinWordsChars (ws : List (List Char)) : List Char :=
  List.intercalate [' '] ws

/-- `DiscrepancyDetectionService._normalize_text`: empty stays empty,
otherwise uppercase, strip, and re-join the words with single spaces. -/
def normText (text : String) : String :=
  if text = "" then ""
  else String.mk (joinWordsChars (wordsChars (trimChars (upperChars text.toList))))

/-- The legal-entity suffixes stripped by `_normalize_name`, in source order. -/
def nameSuffixes : List String :=
  ["INC", "LLC", "LTD", "CORP", "CORPORATION", "CO", "LP", "LLP"]

/-- One iteration of `_normalize_name`'s suffix loop: if the name ends with
`" " + suffix`, cut that ending off and strip again. -/
def stripOneSuffix (n : List Char) (sfx : String) : List Char :=
  let sl := ' ' :: sfx.toList
  if sl.isSuffixOf n then trimChars (n.take (n.length - sl.length)) else n

/-- `DiscrepancyDetectionService._normalize_name`: uppercase and strip, strip
trailing legal-entity suffixes in order, then collapse whitespace. -/
def normalize_name (name : String) : String :=
  if name = "" then ""
  else
    String.mk (joinWordsChars (wordsChars
      (nameSuffixes.foldl stripOneSuffix (trimChars (upperChars name.toList)))))

/-- Python `s.upper().strip()` as used on registration numbers. -/
def upperTrim (s : String) : String :=
  String.mk (trimChars (upperChars s.toList))

/-- `DiscrepancyDetectionService._calculate_similarity`: word-set Jaccard
similarity, with the source's guard clauses for empty inputs. -/
def calculate_similarity (s1 s2 : String) : ℚ :=
  if s1 = "" ∨ s2 = "" then 0
  else
    let w1 := (wordsChars s1.toList).dedup
    let w2 := (wordsChars s2.toList).dedup
    if w1 = [] ∧ w2 = [] then 1
    else if w1 = [] ∨ w2 = [] then 0
    else
      let inter := (w1.filter (fun w => w2.contains w)).length
      let uni := (w1 ++ w2.filter (fun w => !(w1.contains w))).length
      if 0 < uni then (inter : ℚ) / (uni : ℚ) else 0

/-- One element of the `sources` list passed to `detect_name_discrepancies`:
a Python dict whose `source`/`name` keys may be missing. -/
structure NameSrc where
  source : Option String
  name : Option String
deriving DecidableEq, Repr

/-- One entry of the `discrepancies` list built by
`detect_name_discrepancies`. -/
structure NameDiscrepancy where
  source : String
  reported_name : String
  similarity : ℚ
  kind : String
deriving DecidableEq, Repr

/-- The result dictionary of `detect_name_discrepancies`. -/
structure NameResult where
  legal_name : String
  sources_checked : ℕ
  match_count : ℕ
  discrepancies : List NameDiscrepancy
  confidence : ℚ
  severity : String
deriving DecidableEq, Repr

/-- `DiscrepancyDetectionService.detect_name_discrepancies`. -/
def detect_name_discrepancies (legal_name : String) (sources : List NameSrc) :
    NameResult :=
  if sources = [] then
    { legal_name := legal_name, sources_checked := 0, match_count := 0,
      discrepancies := [], confidence := 0, severity := "high" }
  else
    let np := normalize_name legal_name
    let match_count :=
      (sources.filter (fun s => normalize_name (s.name.getD "") = np)).length
    let discrepancies := sources.filterMap (fun s =>
      if normalize_name (s.name.getD "") = np then none
      else some { source := s.source.getD "unknown"
                  reported_name := s.name.getD ""
                  similarity :=
                    calculate_similarity np (normalize_name (s.name.getD ""))
                  kind := "name_mismatch" })
    let mfrac : ℚ := (match_count : ℚ) / (sources.length : ℚ)
    { legal_name := legal_name, sources_checked := sources.length
      match_count := match_count, discrepancies := discrepancies, confidence := mfrac
      severity :=
        if mfrac ≥ 9/10 then "none"
        else if mfrac ≥ 7/10 then "low"
        else if mfrac ≥ 1/2 then "medium"
        else "high" }

/-- The primary-side normalization in `detect_registration_discrepancies`:
`registration_number.upper().strip() if registration_number else ""`. -/
def regNormalize (r : String) : String :=
  if r = "" then "" else upperTrim r

/-- One element of the `sources` list passed to
`detect_registration_discrepancies`. -/
structure RegSrc where
  source : Option String
  registration_number : Option String
deriving DecidableEq, Repr

/-- One entry of the `discrepancies` list built by
`detect_registration_discrepancies`. -/
structure RegDiscrepancy where
  source : String
  reported_registration : String
  kind : String
deriving DecidableEq, Repr

/-- The result dictionary of `detect_registration_discrepancies`. -/
structure RegResult where
  registration_number : String
  jurisdiction : Option String
  sources_checked : ℕ
  match_count : ℕ
  discrepancies : List RegDiscrepancy
  confidence : ℚ
  severity : String
deriving DecidableEq, Repr

/-- `DiscrepancyDetectionService.detect_registration_discrepancies`. -/
def detect_registration_discrepancies (registration_number : String)
    (jurisdiction : Option String) (sources : List RegSrc) : RegResult :=
  if sources = [] then
    { registration_number := registration_number, jurisdiction := jurisdiction
      sources_checked := 0, match_count := 0, discrepancies := []
      confidence := 0, severity := "high" }
  else
    let np := regNormalize registration_number
    let match_count :=
      (sources.filter
        (fun s => upperTrim (s.registration_number.getD "") = np)).length
    let discrepancies := sources.filterMap (fun s =>
      if upperTrim (s.registration_number.getD "") = np then none
      else some { source := s.source.getD "unknown"
                  reported_registration :=
                    upperTrim (s.registration_number.getD "")
                  kind := "registration_mismatch" })
    let mfrac : ℚ := (match_count : ℚ) / (sources.length : ℚ)
    { registration_number := registration_number, jurisdiction := jurisdiction
      sources_checked := sources.length, match_count := match_count
      discrepancies := discrepancies, confidence := mfrac
      severity :=
        if mfrac = 1 then "none"
        else if mfrac ≥ 7/10 then "low"
        else if mfrac ≥ 1/2 then "medium"
        else "high" }

/-- The five address sub-fields compared by `detect_address_discrepancies`. -/
inductive AddrField where
  | street
  | city
  | state
  | country
  | postal_code
deriving DecidableEq, Repr

/-- The `address_fields` list of `detect_address_discrepancies`, in source
order. -/
def addressFields : List AddrField :=
  [.street, .city, .state, .country, .postal_code]

/-- An address dictionary: each sub-field key may be missing (`none`) or hold
a string. -/
structure Address where
  street : Option String
  city : Option String
  state : Option String
  country : Option String
  postal_code : Option String
deriving DecidableEq, Repr

/-- `address.get(field)` on an address dictionary. -/
def Address.get (a : Address) : AddrField → Option String
  | .street => a.street
  | .city => a.city
  | .state => a.state
  | .country => a.country
  | .postal_code => a.postal_code

/-- Python truthiness of an optional string: `None` and `""` are falsy. -/
def truthy (o : Option String) : Bool :=
  match o with
  | none => false
  | some s => s ≠ ""

/-- One element of the `sources` list passed to
`detect_address_discrepancies`; a missing `"address"` key is the empty
dictionary, an address with every sub-field absent. -/
structure AddrSrc where
  source : Option String
  address : Address
deriving DecidableEq, Repr

/-- One per-sub-field discrepancy entry of `detect_address_discrepancies`. -/
structure AddrFieldDiscrepancy where
  field : AddrField
  primary : Option String
  source : Option String
  similarity : ℚ
deriving DecidableEq, Repr

/-- One per-source discrepancy entry of `detect_address_discrepancies`. -/
structure AddrSourceDiscrepancy where
  source : String
  field_discrepancies : List AddrFieldDiscrepancy
  match_frac : ℚ
  kind : String
deriving DecidableEq, Repr

/-- The result dictionary of `detect_address_discrepancies`. -/
structure AddrResult where
  primary_address : Address
  sources_checked : ℕ
  match_count : ℕ
  discrepancies : List AddrSourceDiscrepancy
  confidence : ℚ
  severity : String
deriving DecidableEq, Repr

/-- `len([f for f in address_fields if primary_address.get(f)])`: the
divisor of the per-source match ratio. -/
def presentCount (primary : Address) : ℕ :=
  (addressFields.filter (fun f => truthy (primary.get f))).length

/-- `field_matches` for one source: the sub-fields whose normalized primary
and source values are both non-empty and equal. -/
def fieldMatchCount (primary src : Address) : ℕ :=
  (addressFields.filter (fun f =>
    normText ((primary.get f).getD "") ≠ "" ∧
    normText ((src.get f).getD "") ≠ "" ∧
    normText ((primary.get f).getD "") = normText ((src.get f).getD ""))).length

/-- The `field_discrepancies` list for one source: sub-fields where both
normalized values are non-empty, differ, and have similarity below 0.8. -/
def fieldDiscrepancies (primary src : Address) : List AddrFieldDiscrepancy :=
  addressFields.filterMap (fun f =>
    let pv := normText ((primary.get f).getD "")
    let sv := normText ((src.get f).getD "")
    if pv ≠ "" ∧ sv ≠ "" ∧ pv ≠ sv ∧ calculate_similarity pv sv < 8/10 then
      some { field := f, primary := primary.get f, source := src.get f
             similarity := calculate_similarity pv sv }
    else none)

/-- `DiscrepancyDetectionService.detect_address_discrepancies`. Python's
`field_matches / len([...])` raises `ZeroDivisionError` when no primary
sub-field is truthy and the loop body runs (the divisor does not depend on
the loop variable), so that outcome is modelled as `none`. -/
def detect_address_discrepancies (primary : Address) (sources : List AddrSrc) :
    Option AddrResult :=
  if sources = [] then
    some { primary_address := primary, sources_checked := 0, match_count := 0
           discrepancies := [], confidence := 0, severity := "high" }
  else
    let denom := presentCount primary
    if denom = 0 then none
    else
      let srcFrac : Address → ℚ := fun src =>
        (fieldMatchCount primary src : ℚ) / (denom : ℚ)
      let match_count := (sources.filter (fun s => srcFrac s.address ≥ 8/10)).length
      let discrepancies := sources.filterMap (fun s =>
        if srcFrac s.address ≥ 8/10 then none
        else some { source := s.source.getD "unknown"
                    field_discrepancies := fieldDiscrepancies primary s.address
                    match_frac := srcFrac s.address
                    kind := "address_mismatch" })
      let mfrac : ℚ := (match_count : ℚ) / (sources.length : ℚ)
      some { primary_address := primary, sources_checked := sources.length
             match_count := match_count, discrepancies := discrepancies
             confidence := mfrac
             severity :=
               if mfrac ≥ 9/10 then "none"
               else if mfrac ≥ 7/10 then "low"
               else if mfrac ≥ 1/2 then "medium"
               else "high" }

/-! ## Correction workflow (`backend/app/services/data_correction.py`) -/

/-- `CorrectionStatus` from `app/models/data_correction.py`. -/
inductive CorrectionStatus where
  | PENDING
  | APPROVED
  | REJECTED
deriving DecidableEq, Repr

/-- A `DataCorrection` row; timestamps are abstract ticks. -/
structure DataCorrection where
  id : ℕ
  company_id : ℕ
  company_data_id : Option ℕ
  field_name : String
  field_type : String
  old_value : Option String
  new_value : String
  correction_reason : Option String
  corrected_by : ℕ
  status : CorrectionStatus
  version : String
  previous_correction_id : Option ℕ
  approved_by : Option ℕ
  approved_at : Option ℕ
  created_at : ℕ
deriving DecidableEq, Repr

/-- A `Company` row: `legal_name` is required, the rest nullable. -/
structure Company where
  id : ℕ
  legal_name : String
  registration_number : Option String
  jurisdiction : Option String
  domain : Option String
deriving DecidableEq, Repr

/-- A `CompanyData` row (the claim's DataPoint), reduced to the columns the
correction workflow touches. -/
structure CompanyData where
  id : ℕ
  company_id : ℕ
  field_value : String
  verified : Bool
deriving DecidableEq, Repr

/-- The query in `create_correction`: the APPROVED correction for this
company and field with the greatest `created_at` (`order_by desc`,
`first()`); on equal timestamps the database order is unspecified and the
later row is taken. -/
def latestApprovedCorrection (db : List DataCorrection) (cid : ℕ)
    (fname : String) : Option DataCorrection :=
  (db.filter (fun c =>
      c.company_id = cid ∧ c.field_name = fname ∧
      c.status = CorrectionStatus.APPROVED)).foldl
    (fun best c =>
      match best with
      | none => some c
      | some b => if b.created_at ≤ c.created_at then some c else some b)
    none

/-- Digit-string parsing: `none` on empty or non-digit input, the base-10
value otherwise. -/
def digitsToNat (l : List Char) : Option ℕ :=
  if l = [] then none
  else l.foldl
    (fun acc c => acc.bind (fun n =>
      if c.isDigit then some (10 * n + (c.toNat - 48)) else none))
    (some 0)

/-- Python `int(s)` on a version fragment: optional leading minus then
digits (Python also tolerates surrounding whitespace and underscores, which
never occur in versions the code itself writes). -/
def pyIntOfChars (l : List Char) : Option ℤ :=
  match l with
  | '-' :: rest => (digitsToNat rest).map (fun n => -(n : ℤ))
  | _ => (digitsToNat l).map (fun n => (n : ℤ))

/-- The version parse in `create_correction`: `split('.')`, `int(parts[0])`,
and `int(parts[1])` when present else 0; `none` models the caught
`ValueError`. -/
def parseVersion (v : String) : Option (ℤ × ℤ) :=
  match List.splitOnP (fun c => c = '.') v.toList with
  | [] => none
  | [p] => (pyIntOfChars p).map (fun major => (major, (0 : ℤ)))
  | p0 :: p1 :: _ =>
    match pyIntOfChars p0, pyIntOfChars p1 with
    | some major, some minor => some (major, minor)
    | _, _ => none

/-- The version computation of `create_correction`: "1.0" with no approved
predecessor or an unparseable predecessor version, else
`major.(minor + 1)`. -/
def nextVersion (latest : Option DataCorrection) : String :=
  match latest with
  | none => "1.0"
  | some c =>
    match parseVersion c.version with
    | none => "1.0"
    | some (major, minor) => toString major ++ "." ++ toString (minor + 1)

/-- `DataCorrectionService.create_correction`: looks up the latest APPROVED
correction for the field, computes the next version, links
`previous_correction_id`, and appends a PENDING row. -/
def create_correction (db : List DataCorrection) (company_id : ℕ)
    (field_name field_type : String) (old_value : Option String)
    (new_value : String) (correction_reason : Option String)
    (corrected_by : ℕ) (company_data_id : Option ℕ) (newId now : ℕ) :
    List DataCorrection × DataCorrection :=
  let latest := latestApprovedCorrection db company_id field_name
  let c : DataCorrection :=
    { id := newId
      company_id := company_id
      company_data_id := company_data_id
      field_name := field_name
      field_type := field_type
      old_value := old_value
      new_value := new_value
      correction_reason := correction_reason
      corrected_by := corrected_by
      status := CorrectionStatus.PENDING
      version := nextVersion latest
      previous_correction_id := latest.map (fun x => x.id)
      approved_by := none
      approved_at := none
      created_at := now }
  (db ++ [c], c)

/-- The session state `approve_correction` reads and writes. -/
structure CorrectionDb where
  corrections : List DataCorrection
  companies : List Company
  company_data : List CompanyData
deriving DecidableEq, Repr

/-- The `ValueError`s `approve_correction` raises, by reason. -/
inductive ApproveErr where
  | correctionNotFound
  | correctionNotPending
  | companyNotFound
deriving DecidableEq, Repr

/-- The backward-compatibility capture in `approve_correction`: a null
`old_value` is filled from the company attribute named by `field_type`. -/
def captureOldValue (c : DataCorrection) (company : Company) : Option String :=
  match c.old_value with
  | some v => some v
  | none =>
    if c.field_type = "legal_name" then some company.legal_name
    else if c.field_type = "registration_number" then company.registration_number
    else if c.field_type = "jurisdiction" then company.jurisdiction
    else if c.field_type = "domain" then company.domain
    else none

/-- The `field_type` dispatch of `approve_correction`: write `new_value`
into the matching company attribute; unknown types write nothing. -/
def applyFieldType (company : Company) (ftype nv : String) : Company :=
  if ftype = "legal_name" then { company with legal_name := nv }
  else if ftype = "registration_number" then { company with registration_number := some nv }
  else if ftype = "jurisdiction" then { company with jurisdiction := some nv }
  else if ftype = "domain" then { company with domain := some nv }
  else company

/-- `DataCorrectionService.approve_correction`: not-found and not-PENDING
raise before any write; otherwise the company attribute, the linked
`CompanyData` row (marked verified) and the correction's APPROVED status are
all written in one committed state. -/
def approve_correction (st : CorrectionDb) (correction_id approved_by now : ℕ) :
    Except ApproveErr DataCorrection × CorrectionDb :=
  match st.corrections.find? (fun c => c.id = correction_id) with
  | none => (.error .correctionNotFound, st)
  | some correction =>
    if correction.status ≠ CorrectionStatus.PENDING then
      (.error .correctionNotPending, st)
    else
      match st.companies.find? (fun co => co.id = correction.company_id) with
      | none => (.error .companyNotFound, st)
      | some company =>
        let correction' : DataCorrection :=
          { correction with
              old_value := captureOldValue correction company
              status := CorrectionStatus.APPROVED
              approved_by := some approved_by
              approved_at := some now }
        let companies' := st.companies.map (fun co =>
          if co.id = correction.company_id then
            applyFieldType co correction.field_type correction.new_value
          else co)
        let company_data' :=
          match correction.company_data_id with
          | none => st.company_data
          | some did => st.company_data.map (fun dp =>
              if dp.id = did then
                { dp with field_value := correction.new_value, verified := true }
              else dp)
        let corrections' := st.corrections.map (fun c =>
          if c.id = correction_id then correction' else c)
        (.ok correction',
         { corrections := corrections'
           companies := companies'
           company_data := company_data' })

/-- A concrete PENDING correction used by the approval witness. -/
def corrPendingEx : DataCorrection :=
  { id := 1, company_id := 3, company_data_id := some 5,
    field_name := "legal_name", field_type := "legal_name",
    old_value := none, new_value := "NEW", correction_reason := none,
    corrected_by := 7, status := CorrectionStatus.PENDING, version := "1.0",
    previous_correction_id := none, approved_by := none, approved_at := none,
    created_at := 1 }

/-- The same correction already APPROVED. -/
def corrApprovedEx : DataCorrection :=
  { corrPendingEx with status := CorrectionStatus.APPROVED }

/-- A concrete company row for the approval witness. -/
def companyEx : Company :=
  { id := 3, legal_name := "OLD", registration_number := none,
    jurisdiction := none, domain := none }

/-- A concrete linked data point for the approval witness. -/
def dataPointEx : CompanyData :=
  { id := 5, company_id := 3, field_value := "OLD", verified := false }

/-- Store with a PENDING correction, its company and its data point. -/
def stPendingEx : CorrectionDb :=
  { corrections := [corrPendingEx], companies := [companyEx],
    company_data := [dataPointEx] }

/-- Store whose only correction is already APPROVED. -/
def stApprovedEx : CorrectionDb :=
  { corrections := [corrApprovedEx], companies := [companyEx],
    company_data := [dataPointEx] }

/-! ## Verification orchestrator
(`backend/app/services/verification_service.py`) -/

/-- `VerificationStatus` from `app/models/verification_result.py`. -/
inductive VStatus where
  | PENDING
  | IN_PROGRESS
  | COMPLETED
  | FAILED
deriving DecidableEq, Repr

/-- A `VerificationResult` row. -/
structure VerificationRun where
  id : ℕ
  company_id : ℕ
  risk_score : ℤ
  risk_category : RiskCategory
  verification_status : VStatus
  analysis_started_at : Option ℕ
  analysis_completed_at : Option ℕ
deriving DecidableEq, Repr

/-- The company columns `verify_company` reads. -/
structure VCompany where
  id : ℕ
  legal_name : String
  registration_number : Option String
  jurisdiction : Option String
  domain : Option String
deriving DecidableEq, Repr

/-- A `CompanyData` row written by `_store_company_data`. -/
structure StoredData where
  company_id : ℕ
  data_type : String
  field_name : String
  field_value : String
  source : String
  confidence_score : ℚ
  verified : Bool
deriving DecidableEq, Repr

/-- The session state `verify_company` reads and writes. -/
structure VerificationDb where
  companies : List VCompany
  runs : List VerificationRun
  company_data : List StoredData
deriving DecidableEq, Repr

/-- Python exceptions reaching the orchestrator: `ValueError` for a missing
company, the `NameError` raised by the undefined `logger`, and opaque
external-service failures. -/
inductive PyErr where
  | valueError
  | nameError
  | external (code : ℕ)
deriving DecidableEq, Repr

/-- Outcomes of the AI-enrichment block of `verify_company`. The module
never imports or defines `logger`, so `logger.info` (on a successful
collection) and `logger.warning` (in the except handler) both raise
`NameError`. -/
inductive AiStep where
  | unavailable
  | collectedNoSuccess
  | collectedSuccess
  | raised (e : PyErr)
deriving DecidableEq, Repr

/-- `cross_reference_registration_data`'s result: the `matches` and
`total_sources` entries. -/
structure RegOut where
  matches_count : ℤ
  total_sources : ℤ
deriving DecidableEq, Repr

/-- Oracle for each fallible external call of one `verify_company`
execution; `storeDnsCall`/`storeRegCall` are the `_store_company_data`
commit outcomes (`none` = committed). -/
structure ExecEnv where
  dnsCall : Except PyErr Bool
  domainAgeCall : Except PyErr (Option ℤ)
  sslCall : Except PyErr (Option Bool)
  domainMatchCall : Except PyErr Bool
  storeDnsCall : Option PyErr
  ai : AiStep
  registrationCall : Except PyErr RegOut
  regVerifyCall : Except PyErr Bool
  storeRegCall : Option PyErr
deriving Repr

/-- Whether the AI block of `verify_company` raises: any exception is caught
but the handler's `logger.warning` raises `NameError`, and a successful
collection reaches `logger.info`, which raises `NameError` inside the `try`
and is then re-raised the same way. Only an unavailable orchestrator or an
unsuccessful collection passes silently. -/
def aiBlockRaises (step : AiStep) : Bool :=
  match step with
  | .unavailable => false
  | .collectedNoSuccess => false
  | .collectedSuccess => true
  | .raised _ => true

/-- The `try`-body of `verify_company` after the run row exists: DNS
lookups (domain-dependent), the DNS data row, the AI block, registration
cross-reference, the registration data row, then the risk calculation with
the placeholder contact values (`email_valid=False`, `phone_valid=False`,
`email_exists=None`, `phone_carrier_valid=None`, `suspicious_keywords=0`,
`data_consistency_score=0.8`, `source_reliability_avg=0.7`). Returns the
risk result or the escaping exception, together with the data rows committed
before the failure. -/
def runBody (env : ExecEnv) (company : VCompany) :
    Except PyErr RiskResult × List StoredData :=
  match env.dnsCall with
  | .error e => (.error e, [])
  | .ok dns_verified =>
    let domainAge : Except PyErr (Option ℤ) :=
      if truthy company.domain then env.domainAgeCall else .ok none
    match domainAge with
    | .error e => (.error e, [])
    | .ok domain_age =>
      let ssl : Except PyErr (Option Bool) :=
        if truthy company.domain then env.sslCall else .ok none
      match ssl with
      | .error e => (.error e, [])
      | .ok ssl_valid =>
        let dmatch : Except PyErr Bool :=
          if truthy company.domain then env.domainMatchCall else .ok false
        match dmatch with
        | .error e => (.error e, [])
        | .ok domain_matches =>
          let dnsRow : List StoredData :=
            if truthy company.domain then
              [{ company_id := company.id, data_type := "REGISTRATION",
                 field_name := "domain", field_value := company.domain.getD "",
                 source := "dns_lookup", confidence_score := 1,
                 verified := dns_verified }]
            else []
          match (if truthy company.domain then env.storeDnsCall else none) with
          | some e => (.error e, [])
          | none =>
            if aiBlockRaises env.ai then (.error .nameError, dnsRow)
            else
              match env.registrationCall with
              | .error e => (.error e, dnsRow)
              | .ok reg =>
                match (if truthy company.registration_number then
                    env.regVerifyCall.map some else .ok none) with
                | .error e => (.error e, dnsRow)
                | .ok regVerified =>
                  let regRow : List StoredData :=
                    match regVerified with
                    | none => []
                    | some ok =>
                      [{ company_id := company.id, data_type := "REGISTRATION",
                         field_name := "registration_number",
                         field_value := company.registration_number.getD "",
                         source := "format_validation",
                         confidence_score := if ok then 8/10 else 3/10,
                         verified := ok }]
                  match (if truthy company.registration_number then
                      env.storeRegCall else none) with
                  | some e => (.error e, dnsRow)
                  | none =>
                    (.ok (calculate_overall_risk dns_verified domain_age
                        reg.matches_count reg.total_sources false false
                        none none domain_matches ssl_valid 0 (8/10) (7/10)),
                     dnsRow ++ regRow)

/-- Lines 46-57 of `verify_company`: unconditionally create and commit a new
IN_PROGRESS run for the company — no check for an existing IN_PROGRESS run
precedes it. -/
def startVerificationRun (db : VerificationDb)
    (company_id newRunId tStart : ℕ) : VerificationRun × VerificationDb :=
  let run0 : VerificationRun :=
    { id := newRunId, company_id := company_id, risk_score := 0,
      risk_category := RiskCategory.LOW,
      verification_status := VStatus.IN_PROGRESS,
      analysis_started_at := some tStart, analysis_completed_at := none }
  (run0, { db with runs := db.runs ++ [run0] })

/-- `VerificationService.verify_company`: company lookup, run creation, the
execute body, then either the COMPLETED update with the computed score or
the except-handler's FAILED update with `analysis_completed_at` set,
re-raising the exception. -/
def verify_company (env : ExecEnv) (db : VerificationDb)
    (company_id newRunId tStart tEnd : ℕ) :
    Except PyErr VerificationRun × VerificationDb :=
  match db.companies.find? (fun c => c.id = company_id) with
  | none => (.error .valueError, db)
  | some company =>
    let created := startVerificationRun db company_id newRunId tStart
    let run0 := created.1
    let db1 := created.2
    match runBody env company with
    | (.ok rr, rows) =>
      let run1 := { run0 with
        risk_score := rr.risk_score, risk_category := rr.risk_category,
        verification_status := VStatus.COMPLETED,
        analysis_completed_at := some tEnd }
      (.ok run1,
       { db1 with
          runs := db1.runs.map (fun r => if r.id = newRunId then run1 else r)
          company_data := db1.company_data ++ rows })
    | (.error e, rows) =>
      let run1 := { run0 with
        verification_status := VStatus.FAILED,
        analysis_completed_at := some tEnd }
      (.error e,
       { db1 with
          runs := db1.runs.map (fun r => if r.id = newRunId then run1 else r)
          company_data := db1.company_data ++ rows })

/-- The number of IN_PROGRESS runs a company has. -/
def countInProgress (db : VerificationDb) (cid : ℕ) : ℕ :=
  (db.runs.filter (fun r =>
    r.company_id = cid ∧ r.verification_status = VStatus.IN_PROGRESS)).length

/-- A concrete company (no domain, no registration number). -/
def compEx : VCompany :=
  { id := 1, legal_name := "ACME", registration_number := none,
    jurisdiction := none, domain := none }

/-- A pre-existing IN_PROGRESS run for company 1. -/
def runInProgEx : VerificationRun :=
  { id := 1, company_id := 1, risk_score := 0,
    risk_category := RiskCategory.LOW,
    verification_status := VStatus.IN_PROGRESS,
    analysis_started_at := some 0, analysis_completed_at := none }

/-- State already holding an IN_PROGRESS run for company 1. -/
def dbInProgEx : VerificationDb :=
  { companies := [compEx], runs := [runInProgEx], company_data := [] }

/-- State with company 1 and no runs. -/
def dbFreshEx : VerificationDb :=
  { companies := [compEx], runs := [], company_data := [] }

/-- Oracle whose DNS lookup raises. -/
def envFailEx : ExecEnv :=
  { dnsCall := Except.error (PyErr.external 0)
    domainAgeCall := Except.ok none
    sslCall := Except.ok none
    domainMatchCall := Except.ok false
    storeDnsCall := none
    ai := AiStep.unavailable
    registrationCall := Except.ok { matches_count := 0, total_sources := 0 }
    regVerifyCall := Except.ok false
    storeRegCall := none }

/-- Oracle whose DNS lookup succeeds and whose AI block raises. -/
def envAiRaiseEx : ExecEnv :=
  { envFailEx with
      dnsCall := Except.ok true
      ai := AiStep.raised (PyErr.external 1) }

/-! ## Lemmas and claim theorems -/

/-- Unfolded form of `calculate_overall_risk`: the returned record written
with each component spelled out (definitional). -/
lemma calculate_overall_risk_eq
    (dv : Bool) (da : Option ℤ) (rm ts : ℤ) (ev pv : Bool) (ee pc : Option Bool)
    (dm : Bool) (sv : Option Bool) (sk : ℤ) (dc sr : ℚ) :
    calculate_overall_risk dv da rm ts ev pv ee pc dm sv sk dc sr =
      { risk_score := min 100 (max 0 (Int.fdiv
          (calculate_dns_risk dv da * 25 +
           calculate_registration_consistency_risk rm ts * 25 +
           calculate_contact_validation_risk ev pv ee pc * 20 +
           calculate_domain_authenticity_risk dm sv sk * 15 +
           calculate_cross_source_validation_risk dc sr * 15) 100))
        risk_category :=
          (if Int.fdiv
              (calculate_dns_risk dv da * 25 +
               calculate_registration_consistency_risk rm ts * 25 +
               calculate_contact_validation_risk ev pv ee pc * 20 +
               calculate_domain_authenticity_risk dm sv sk * 15 +
               calculate_cross_source_validation_risk dc sr * 15) 100 ≤ 30
           then RiskCategory.LOW
           else if Int.fdiv
              (calculate_dns_risk dv da * 25 +
               calculate_registration_consistency_risk rm ts * 25 +
               calculate_contact_validation_risk ev pv ee pc * 20 +
               calculate_domain_authenticity_risk dm sv sk * 15 +
               calculate_cross_source_validation_risk dc sr * 15) 100 ≤ 70
           then RiskCategory.MEDIUM else RiskCategory.HIGH)
        breakdown :=
          { dns_risk := calculate_dns_risk dv da
            registration_risk := calculate_registration_consistency_risk rm ts
            contact_risk := calculate_contact_validation_risk ev pv ee pc
            domain_risk := calculate_domain_authenticity_risk dm sv sk
            cross_source_risk := calculate_cross_source_validation_risk dc sr
            weights := ⟨25, 25, 20, 15, 15⟩ } } := rfl

/-- A clamped integer lies in `[0, 100]`. -/
lemma clampInt_mem (x : ℤ) : 0 ≤ min 100 (max 0 x) ∧ min 100 (max 0 x) ≤ 100 := by
  omega

/-- `calculate_dns_risk` always returns a value in `[0, 100]`. -/
lemma calculate_dns_risk_mem (v : Bool) (a : Option ℤ) :
    0 ≤ calculate_dns_risk v a ∧ calculate_dns_risk v a ≤ 100 := by
  unfold calculate_dns_risk
  cases v
  · norm_num
  · cases a
    · norm_num
    · norm_num
      split_ifs <;> omega

/-- `calculate_registration_consistency_risk` always returns a value in
`[0, 100]`. -/
lemma calculate_registration_consistency_risk_mem (m t : ℤ) :
    0 ≤ calculate_registration_consistency_risk m t ∧
      calculate_registration_consistency_risk m t ≤ 100 := by
  unfold calculate_registration_consistency_risk
  simp only [ge_iff_le]
  split_ifs <;> norm_num

/-- `calculate_contact_validation_risk` always returns a value in `[0, 100]`. -/
lemma calculate_contact_validation_risk_mem (a b : Bool) (c d : Option Bool) :
    0 ≤ calculate_contact_validation_risk a b c d ∧
      calculate_contact_validation_risk a b c d ≤ 100 := by
  unfold calculate_contact_validation_risk
  exact clampInt_mem _

/-- `calculate_domain_authenticity_risk` always returns a value in `[0, 100]`. -/
lemma calculate_domain_authenticity_risk_mem (a : Bool) (b : Option Bool) (k : ℤ) :
    0 ≤ calculate_domain_authenticity_risk a b k ∧
      calculate_domain_authenticity_risk a b k ≤ 100 := by
  unfold calculate_domain_authenticity_risk
  exact clampInt_mem _

/-- `calculate_cross_source_validation_risk` always returns a value in
`[0, 100]`. -/
lemma calculate_cross_source_validation_risk_mem (c r : ℚ) :
    0 ≤ calculate_cross_source_validation_risk c r ∧
      calculate_cross_source_validation_risk c r ≤ 100 := by
  unfold calculate_cross_source_validation_risk
  exact clampInt_mem _

/-- C1: for every input, `calculate_overall_risk` returns a `risk_score` equal
to the integer floor of the weighted sum
`(dns*25 + registration*25 + contact*20 + domain*15 + cross_source*15)/100`
over the five component scores; the score is an integer in `[0, 100]`; the
category is LOW iff score ≤ 30, MEDIUM iff 30 < score ≤ 70, HIGH iff
score > 70; and the result carries the per-component breakdown together with
the weight table. -/
theorem overall_risk_formula_and_category
    (dv : Bool) (da : Option ℤ) (rm ts : ℤ) (ev pv : Bool) (ee pc : Option Bool)
    (dm : Bool) (sv : Option Bool) (sk : ℤ) (dc sr : ℚ) :
    (calculate_overall_risk dv da rm ts ev pv ee pc dm sv sk dc sr).risk_score =
      Int.fdiv
        ((calculate_overall_risk dv da rm ts ev pv ee pc dm sv sk dc sr).breakdown.dns_risk * 25 +
         (calculate_overall_risk dv da rm ts ev pv ee pc dm sv sk dc sr).breakdown.registration_risk * 25 +
         (calculate_overall_risk dv da rm ts ev pv ee pc dm sv sk dc sr).breakdown.contact_risk * 20 +
         (calculate_overall_risk dv da rm ts ev pv ee pc dm sv sk dc sr).breakdown.domain_risk * 15 +
         (calculate_overall_risk dv da rm ts ev pv ee pc dm sv sk dc sr).breakdown.cross_source_risk * 15) 100 ∧
    0 ≤ (calculate_overall_risk dv da rm ts ev pv ee pc dm sv sk dc sr).risk_score ∧
    (calculate_overall_risk dv da rm ts ev pv ee pc dm sv sk dc sr).risk_score ≤ 100 ∧
    ((calculate_overall_risk dv da rm ts ev pv ee pc dm sv sk dc sr).risk_category = RiskCategory.LOW ↔
      (calculate_overall_risk dv da rm ts ev pv ee pc dm sv sk dc sr).risk_score ≤ 30) ∧
    ((calculate_overall_risk dv da rm ts ev pv ee pc dm sv sk dc sr).risk_category = RiskCategory.MEDIUM ↔
      (30 < (calculate_overall_risk dv da rm ts ev pv ee pc dm sv sk dc sr).risk_score ∧
       (calculate_overall_risk dv da rm ts ev pv ee pc dm sv sk dc sr).risk_score ≤ 70)) ∧
    ((calculate_overall_risk dv da rm ts ev pv ee pc dm sv sk dc sr).risk_category = RiskCategory.HIGH ↔
      70 < (calculate_overall_risk dv da rm ts ev pv ee pc dm sv sk dc sr).risk_score) ∧
    (calculate_overall_risk dv da rm ts ev pv ee pc dm sv sk dc sr).breakdown =
      { dns_risk := calculate_dns_risk dv da
        registration_risk := calculate_registration_consistency_risk rm ts
        contact_risk := calculate_contact_validation_risk ev pv ee pc
        domain_risk := calculate_domain_authenticity_risk dm sv sk
        cross_source_risk := calculate_cross_source_validation_risk dc sr
        weights := ⟨25, 25, 20, 15, 15⟩ } := by
  obtain ⟨hd0, hd1⟩ := calculate_dns_risk_mem dv da
  obtain ⟨hg0, hg1⟩ := calculate_registration_consistency_risk_mem rm ts
  obtain ⟨hc0, hc1⟩ := calculate_contact_validation_risk_mem ev pv ee pc
  obtain ⟨hm0, hm1⟩ := calculate_domain_authenticity_risk_mem dm sv sk
  obtain ⟨hx0, hx1⟩ := calculate_cross_source_validation_risk_mem dc sr
  rw [calculate_overall_risk_eq]
  set d := calculate_dns_risk dv da
  set g := calculate_registration_consistency_risk rm ts
  set c := calculate_contact_validation_risk ev pv ee pc
  set m := calculate_domain_authenticity_risk dm sv sk
  set x := calculate_cross_source_validation_risk dc sr
  have hfd : Int.fdiv (d * 25 + g * 25 + c * 20 + m * 15 + x * 15) 100 =
      (d * 25 + g * 25 + c * 20 + m * 15 + x * 15) / 100 :=
    Int.fdiv_eq_ediv _ (by norm_num)
  simp only [hfd]
  refine ⟨by omega, by omega, by omega, ?_, ?_, ?_, trivial⟩ <;>
    split_ifs <;> simp <;> omega

/-- C3 (counterexample): on the input `dns_verified = false` with all other
inputs "good" (`domain_age_days = 500`, `registration_matches = 9`,
`total_sources = 10`, valid email/phone with positive existence/carrier
checks, matching domain, valid SSL, no suspicious keywords, consistency 0.9,
reliability 0.8), `calculate_overall_risk` does NOT return a risk score above
70 with category HIGH. -/
theorem dns_unverified_good_inputs_counterexample :
    ¬ (70 < (calculate_overall_risk false (some 500) 9 10 true true (some true)
        (some true) true (some true) 0 (9/10) (8/10)).risk_score ∧
       (calculate_overall_risk false (some 500) 9 10 true true (some true)
        (some true) true (some true) 0 (9/10) (8/10)).risk_category = RiskCategory.HIGH) := by
  rw [calculate_overall_risk_eq]
  norm_num [calculate_dns_risk, calculate_registration_consistency_risk,
    calculate_contact_validation_risk, calculate_domain_authenticity_risk,
    calculate_cross_source_validation_risk, pyTrunc]
  decide

/-- C3 (amended): on the input `dns_verified = false` with all other inputs
"good", the DNS component is the maximal 100, yet its 25% weight caps its
contribution at 25 points, so `calculate_overall_risk` returns
`risk_score = 29` and hence `risk_category` LOW. -/
theorem dns_unverified_good_inputs_score :
    (calculate_overall_risk false (some 500) 9 10 true true (some true)
      (some true) true (some true) 0 (9/10) (8/10)).risk_score = 29 ∧
    (calculate_overall_risk false (some 500) 9 10 true true (some true)
      (some true) true (some true) 0 (9/10) (8/10)).risk_category = RiskCategory.LOW ∧
    (calculate_overall_risk false (some 500) 9 10 true true (some true)
      (some true) true (some true) 0 (9/10) (8/10)).breakdown.dns_risk = 100 := by
  rw [calculate_overall_risk_eq]
  norm_num [calculate_dns_risk, calculate_registration_consistency_risk,
    calculate_contact_validation_risk, calculate_domain_authenticity_risk,
    calculate_cross_source_validation_risk, pyTrunc]
  decide

/-- C9 (counterexample): on `"12+34567"`, whose `'+'` is interior rather than
leading, `validate_phone` answers valid even though the claim's reading
(strip separators and an optional leading `'+'` only) rejects it. -/
theorem validate_phone_plus_counterexample :
    validate_phone "12+34567" = (true, none) ∧
    spec_phone_valid "12+34567" = false := by
  constructor <;> rfl

/-- The leading-plus strip in `validate_phone` is dead code: the filtered
list never starts with `'+'`. -/
lemma stripLeadingPlus_filter (l : List Char) :
    stripLeadingPlus (l.filter (fun c => !(pySep c))) =
      l.filter (fun c => !(pySep c)) := by
  cases h : l.filter (fun c => !(pySep c)) with
  | nil => rfl
  | cons a t =>
    have ha : a ∈ l.filter (fun c => !(pySep c)) := by
      rw [h]; exact List.mem_cons_self a t
    have := (List.mem_filter.mp ha).2
    have hne : a ≠ '+' := by
      intro hEq
      rw [hEq] at this
      simp [pySep] at this
    simp [stripLeadingPlus, hne]

/-- C9 (amended): `validate_phone` never throws (it is a total function into
result pairs); it answers valid exactly when, after removing whitespace,
hyphens, parentheses and `'+'` signs wherever they occur, the remainder is a
nonempty all-digit string of length 7 to 15; a valid answer carries a null
message and every invalid answer carries an error message. -/
theorem validate_phone_characterization (s : String) :
    ((validate_phone s).1 = true ↔
      ((s.toList.filter (fun c => !(pySep c))).all Char.isDigit = true ∧
       7 ≤ (s.toList.filter (fun c => !(pySep c))).length ∧
       (s.toList.filter (fun c => !(pySep c))).length ≤ 15)) ∧
    ((validate_phone s).1 = true → (validate_phone s).2 = none) ∧
    ((validate_phone s).1 = false → (validate_phone s).2 ≠ none) := by
  by_cases hs : s = ""
  · subst hs
    refine ⟨?_, ?_, ?_⟩ <;> simp [validate_phone]
  · unfold validate_phone
    rw [if_neg hs]
    simp only [stripLeadingPlus_filter]
    set cl := s.toList.filter (fun c => !(pySep c)) with hcl
    by_cases h1 : cl.isEmpty || !(cl.all Char.isDigit)
    · rw [if_pos h1]
      simp only [Bool.or_eq_true, Bool.not_eq_true', List.isEmpty_iff] at h1
      refine ⟨?_, by simp, by simp⟩
      constructor
      · simp
      · rintro ⟨hAll, h7, _⟩
        rcases h1 with h | h
        · rw [h] at h7
          simp at h7
        · rw [hAll] at h
          simp at h
    · rw [if_neg h1]
      simp only [Bool.or_eq_true, Bool.not_eq_true', List.isEmpty_iff, not_or] at h1
      obtain ⟨hne, hdig⟩ := h1
      by_cases h2 : cl.length < 7 || 15 < cl.length
      · rw [if_pos h2]
        simp only [Bool.or_eq_true, decide_eq_true_eq] at h2
        refine ⟨?_, by simp, by simp⟩
        constructor
        · simp
        · rintro ⟨_, h7, h15⟩
          omega
      · rw [if_neg h2]
        simp only [Bool.or_eq_true, decide_eq_true_eq, not_or, not_lt] at h2
        refine ⟨?_, by simp, by simp⟩
        constructor
        · intro _
          refine ⟨?_, h2.1, h2.2⟩
          simpa using hdig
        · intro _
          rfl

/-- Normalizing the empty string gives the empty string. -/
lemma normText_empty : normText "" = "" := rfl

/-- A falsy optional string normalizes to the empty string. -/
lemma truthy_false_normText (o : Option String) (h : truthy o = false) :
    normText (o.getD "") = "" := by
  cases o with
  | none => rfl
  | some s =>
    simp only [truthy, ne_eq, decide_not] at h
    have : s = "" := by simpa using h
    rw [this]
    rfl

/-- C10: for every non-empty source list, `detect_address_discrepancies`
returns normally exactly when at least one primary sub-field is present and
non-empty (Python-truthy); with all five sub-fields absent or empty and at
least one source, the per-source ratio's divisor is zero and the call raises
instead of returning. -/
theorem address_discrepancy_totality (primary : Address) (sources : List AddrSrc)
    (h : sources ≠ []) :
    (detect_address_discrepancies primary sources).isSome = true ↔
      ∃ f ∈ addressFields, truthy (primary.get f) = true := by
  simp only [detect_address_discrepancies, if_neg h]
  by_cases hd : presentCount primary = 0
  · rw [if_pos hd]
    simp only [Option.isSome_none, Bool.false_eq_true, false_iff]
    unfold presentCount at hd
    rw [List.length_eq_zero, List.filter_eq_nil_iff] at hd
    push_neg
    intro f hf
    simpa using hd f hf
  · rw [if_neg hd]
    simp only [Option.isSome_some, true_iff]
    unfold presentCount at hd
    rw [List.length_eq_zero, List.filter_eq_nil_iff] at hd
    push_neg at hd
    obtain ⟨f, hf, hp⟩ := hd
    exact ⟨f, hf, by simpa using hp⟩

/-- C10 witness: at a concrete primary address with one present sub-field
and one source, the theorem applies and the call returns normally. -/
theorem address_discrepancy_totality_witness :
    ((detect_address_discrepancies ⟨some "A", none, none, none, none⟩
        [⟨some "s1", ⟨some "A", none, none, none, none⟩⟩]).isSome = true ↔
      ∃ f ∈ addressFields,
        truthy ((⟨some "A", none, none, none, none⟩ : Address).get f) = true) :=
  address_discrepancy_totality ⟨some "A", none, none, none, none⟩
    [⟨some "s1", ⟨some "A", none, none, none, none⟩⟩] (by simp)

/-- Name discrepancies: a non-empty source list whose every name equals the
primary after normalization yields severity none and confidence 1. -/
lemma name_all_match_severity (legal : String) (sources : List NameSrc)
    (hne : sources ≠ [])
    (hall : ∀ s ∈ sources, normalize_name (s.name.getD "") = normalize_name legal) :
    (detect_name_discrepancies legal sources).severity = "none" ∧
    (detect_name_discrepancies legal sources).confidence = 1 := by
  simp only [detect_name_discrepancies, if_neg hne]
  have hfil : sources.filter
      (fun s => normalize_name (s.name.getD "") = normalize_name legal) = sources := by
    rw [List.filter_eq_self]
    intro a ha
    simpa using hall a ha
  rw [hfil]
  have hlen : ((sources.length : ℚ)) ≠ 0 := by
    have : sources.length ≠ 0 := by
      simpa [List.length_eq_zero] using hne
    exact_mod_cast this
  rw [div_self hlen]
  norm_num

/-- Registration discrepancies: a non-empty source list whose every number
equals the primary after upper/strip yields severity none and confidence 1. -/
lemma reg_all_match_severity (rn : String) (j : Option String)
    (sources : List RegSrc) (hne : sources ≠ [])
    (hall : ∀ s ∈ sources, upperTrim (s.registration_number.getD "") = regNormalize rn) :
    (detect_registration_discrepancies rn j sources).severity = "none" ∧
    (detect_registration_discrepancies rn j sources).confidence = 1 := by
  simp only [detect_registration_discrepancies, if_neg hne]
  have hfil : sources.filter
      (fun s => upperTrim (s.registration_number.getD "") = regNormalize rn) = sources := by
    rw [List.filter_eq_self]
    intro a ha
    simpa using hall a ha
  rw [hfil]
  have hlen : ((sources.length : ℚ)) ≠ 0 := by
    have : sources.length ≠ 0 := by
      simpa [List.length_eq_zero] using hne
    exact_mod_cast this
  rw [div_self hlen]
  norm_num

/-- Registration discrepancies: severity is none exactly when the match
ratio (the returned confidence) is exactly 1. -/
lemma reg_none_iff_frac_one (rn : String) (j : Option String)
    (sources : List RegSrc) :
    ((detect_registration_discrepancies rn j sources).severity = "none" ↔
      (detect_registration_discrepancies rn j sources).confidence = 1) := by
  by_cases hne : sources = []
  · subst hne
    simp [detect_registration_discrepancies]
  · simp only [detect_registration_discrepancies, if_neg hne]
    by_cases h1 : ((sources.filter
        (fun s => upperTrim (s.registration_number.getD "") = regNormalize rn)).length : ℚ) /
        (sources.length : ℚ) = 1
    · simp [h1]
    · rw [if_neg h1]
      split_ifs <;> simp [h1]

/-- Address discrepancies: a non-empty source list agreeing with the primary
on every normalized sub-field yields severity none and confidence 1,
provided some primary sub-field is present and every present one survives
normalization non-empty. -/
lemma addr_all_match_severity (primary : Address) (sources : List AddrSrc)
    (hne : sources ≠ [])
    (hall : ∀ s ∈ sources, ∀ f,
      normText ((s.address.get f).getD "") = normText ((primary.get f).getD ""))
    (hex : ∃ f ∈ addressFields, truthy (primary.get f) = true)
    (htr : ∀ f, truthy (primary.get f) = true → normText ((primary.get f).getD "") ≠ "") :
    ∃ r, detect_address_discrepancies primary sources = some r ∧
      r.severity = "none" ∧ r.confidence = 1 := by
  have hd : presentCount primary ≠ 0 := by
    intro h0
    unfold presentCount at h0
    rw [List.length_eq_zero, List.filter_eq_nil_iff] at h0
    obtain ⟨f, hf, ht⟩ := hex
    exact (h0 f hf) ht
  have hiff : ∀ f, (normText ((primary.get f).getD "") ≠ "") ↔ truthy (primary.get f) = true := by
    intro f
    constructor
    · intro hne2
      by_contra hfalse
      exact hne2 (truthy_false_normText _ (by simpa using hfalse))
    · exact htr f
  have hcnt : ∀ s ∈ sources, fieldMatchCount primary s.address = presentCount primary := by
    intro s hs
    unfold fieldMatchCount presentCount
    congr 1
    apply List.filter_congr
    intro f hf
    rw [hall s hs f]
    by_cases ht : truthy (primary.get f) = true
    · have hpv := (hiff f).mpr ht
      simp [ht, hpv]
    · have hfalse : truthy (primary.get f) = false := by
        simpa using ht
      have hpv : normText ((primary.get f).getD "") = "" :=
        truthy_false_normText _ hfalse
      simp [hfalse, hpv]
  simp only [detect_address_discrepancies, if_neg hne, if_neg hd]
  have hdq : ((presentCount primary : ℚ)) ≠ 0 := by
    exact_mod_cast hd
  have hfil : sources.filter
      (fun s => ((fieldMatchCount primary s.address : ℚ) / (presentCount primary : ℚ) ≥ 8/10)) = sources := by
    rw [List.filter_eq_self]
    intro a ha
    rw [hcnt a ha, div_self hdq]
    norm_num
  rw [hfil]
  have hlen : ((sources.length : ℚ)) ≠ 0 := by
    have : sources.length ≠ 0 := by
      simpa [List.length_eq_zero] using hne
    exact_mod_cast this
  refine ⟨_, rfl, ?_, ?_⟩ <;>
    · simp only [div_self hlen]
      try norm_num

/-- C8 (counterexample): a primary address whose `city` is the whitespace
string `" "` and a single source identical to it: every sub-field equals the
primary after normalization, yet the call returns severity high and
confidence 0 (the whitespace field counts in the divisor but not as a
match), so the claim's all-equal-implies-none clause fails for addresses. -/
theorem address_whitespace_counterexample :
    (∀ f, normText (((⟨some "s1", ⟨some "A", some " ", none, none, none⟩⟩ : AddrSrc).address.get f).getD "") =
      normText (((⟨some "A", some " ", none, none, none⟩ : Address).get f).getD "")) ∧
    (detect_address_discrepancies ⟨some "A", some " ", none, none, none⟩
       [⟨some "s1", ⟨some "A", some " ", none, none, none⟩⟩]).map AddrResult.severity = some "high" ∧
    (detect_address_discrepancies ⟨some "A", some " ", none, none, none⟩
       [⟨some "s1", ⟨some "A", some " ", none, none, none⟩⟩]).map AddrResult.confidence = some 0 := by
  refine ⟨fun f => rfl, ?_⟩
  have hpc : presentCount ⟨some "A", some " ", none, none, none⟩ = 2 := by decide
  have hfm : fieldMatchCount ⟨some "A", some " ", none, none, none⟩
      ⟨some "A", some " ", none, none, none⟩ = 1 := by decide
  simp only [detect_address_discrepancies]
  norm_num [List.filter_cons, List.filterMap_cons, hpc, hfm]

/-- C8 (amended): for name, registration and address detection, zero sources
give severity high and confidence 0; a non-empty source list whose values
all equal the primary after normalization gives severity none and
confidence 1 — for addresses under the added proviso that some primary
sub-field is present and every present sub-field is non-empty after
normalization; and for registration numbers severity none holds exactly
when the match ratio equals 1. -/
theorem discrepancy_normalized_match_severity :
    (∀ legal : String,
      (detect_name_discrepancies legal []).severity = "high" ∧
      (detect_name_discrepancies legal []).confidence = 0) ∧
    (∀ (legal : String) (sources : List NameSrc), sources ≠ [] →
      (∀ s ∈ sources, normalize_name (s.name.getD "") = normalize_name legal) →
      (detect_name_discrepancies legal sources).severity = "none" ∧
      (detect_name_discrepancies legal sources).confidence = 1) ∧
    (∀ (rn : String) (j : Option String),
      (detect_registration_discrepancies rn j []).severity = "high" ∧
      (detect_registration_discrepancies rn j []).confidence = 0) ∧
    (∀ (rn : String) (j : Option String) (sources : List RegSrc), sources ≠ [] →
      (∀ s ∈ sources, upperTrim (s.registration_number.getD "") = regNormalize rn) →
      (detect_registration_discrepancies rn j sources).severity = "none" ∧
      (detect_registration_discrepancies rn j sources).confidence = 1) ∧
    (∀ (rn : String) (j : Option String) (sources : List RegSrc),
      ((detect_registration_discrepancies rn j sources).severity = "none" ↔
        (detect_registration_discrepancies rn j sources).confidence = 1)) ∧
    (∀ primary : Address,
      ∃ r, detect_address_discrepancies primary [] = some r ∧
        r.severity = "high" ∧ r.confidence = 0) ∧
    (∀ (primary : Address) (sources : List AddrSrc), sources ≠ [] →
      (∀ s ∈ sources, ∀ f,
        normText ((s.address.get f).getD "") = normText ((primary.get f).getD "")) →
      (∃ f ∈ addressFields, truthy (primary.get f) = true) →
      (∀ f, truthy (primary.get f) = true → normText ((primary.get f).getD "") ≠ "") →
      ∃ r, detect_address_discrepancies primary sources = some r ∧
        r.severity = "none" ∧ r.confidence = 1) := by
  refine ⟨?_, name_all_match_severity, ?_, reg_all_match_severity,
    reg_none_iff_frac_one, ?_, addr_all_match_severity⟩
  · intro legal
    simp [detect_name_discrepancies]
  · intro rn j
    simp [detect_registration_discrepancies]
  · intro primary
    exact ⟨_, rfl, rfl, rfl⟩

/-- C8 witness: the amended theorem applied at concrete inputs — a matching
name source, a matching registration source, and a matching address
source. -/
theorem discrepancy_severity_witness :
    ((detect_name_discrepancies "Acme Inc" [⟨some "a", some "ACME LLC"⟩]).severity = "none" ∧
     (detect_name_discrepancies "Acme Inc" [⟨some "a", some "ACME LLC"⟩]).confidence = 1) ∧
    ((detect_registration_discrepancies "ab1" none [⟨some "a", some " AB1 "⟩]).severity = "none" ∧
     (detect_registration_discrepancies "ab1" none [⟨some "a", some " AB1 "⟩]).confidence = 1) ∧
    (∃ r, detect_address_discrepancies ⟨some "X", none, none, none, none⟩
        [⟨some "a", ⟨some "x", none, none, none, none⟩⟩] = some r ∧
      r.severity = "none" ∧ r.confidence = 1) := by
  refine ⟨?_, ?_, ?_⟩
  · exact discrepancy_normalized_match_severity.2.1 "Acme Inc" _ (by decide) (by decide)
  · exact discrepancy_normalized_match_severity.2.2.2.1 "ab1" none _ (by decide) (by decide)
  · refine discrepancy_normalized_match_severity.2.2.2.2.2.2 _ _ (by decide) ?_ ?_ ?_
    · intro s hs f
      rw [List.mem_singleton.mp hs]
      cases f <;> rfl
    · exact ⟨AddrField.street, by decide, by decide⟩
    · intro f h
      revert h
      cases f <;> decide

/-- C4: a correction created with no APPROVED predecessor for its
(company, field) gets version "1.0" and a null `previous_correction_id`;
one created after a latest APPROVED predecessor whose version parses as
`major.minor` gets `major.(minor+1)` and links that predecessor's id;
appending a PENDING or REJECTED row changes neither; and every created
correction starts PENDING. -/
theorem correction_versioning
    (db : List DataCorrection) (cid : ℕ) (fname ftype : String)
    (ov : Option String) (nv : String) (reason : Option String)
    (corrBy : ℕ) (cdid : Option ℕ) (newId now : ℕ) :
    ((∀ c ∈ db, ¬(c.company_id = cid ∧ c.field_name = fname ∧
        c.status = CorrectionStatus.APPROVED)) →
      (create_correction db cid fname ftype ov nv reason corrBy cdid newId now).2.version = "1.0" ∧
      (create_correction db cid fname ftype ov nv reason corrBy cdid newId now).2.previous_correction_id = none) ∧
    (∀ c0 M m, latestApprovedCorrection db cid fname = some c0 →
      parseVersion c0.version = some (M, m) →
      (create_correction db cid fname ftype ov nv reason corrBy cdid newId now).2.version =
        toString M ++ "." ++ toString (m + 1) ∧
      (create_correction db cid fname ftype ov nv reason corrBy cdid newId now).2.previous_correction_id =
        some c0.id) ∧
    (∀ extra : DataCorrection, extra.status ≠ CorrectionStatus.APPROVED →
      (create_correction (db ++ [extra]) cid fname ftype ov nv reason corrBy cdid newId now).2.version =
        (create_correction db cid fname ftype ov nv reason corrBy cdid newId now).2.version ∧
      (create_correction (db ++ [extra]) cid fname ftype ov nv reason corrBy cdid newId now).2.previous_correction_id =
        (create_correction db cid fname ftype ov nv reason corrBy cdid newId now).2.previous_correction_id) ∧
    (create_correction db cid fname ftype ov nv reason corrBy cdid newId now).2.status =
      CorrectionStatus.PENDING := by
  refine ⟨?_, ?_, ?_, rfl⟩
  · intro hnone
    have hfil : db.filter (fun c =>
        c.company_id = cid ∧ c.field_name = fname ∧
        c.status = CorrectionStatus.APPROVED) = [] := by
      rw [List.filter_eq_nil_iff]
      intro c hc
      simpa using hnone c hc
    have hlat : latestApprovedCorrection db cid fname = none := by
      unfold latestApprovedCorrection
      rw [hfil]
      rfl
    constructor <;> simp [create_correction, nextVersion, hlat]
  · intro c0 M m hlat hparse
    constructor <;> simp [create_correction, nextVersion, hlat, hparse]
  · intro extra hextra
    have hsame : latestApprovedCorrection (db ++ [extra]) cid fname =
        latestApprovedCorrection db cid fname := by
      unfold latestApprovedCorrection
      rw [List.filter_append]
      have : [extra].filter (fun c =>
          c.company_id = cid ∧ c.field_name = fname ∧
          c.status = CorrectionStatus.APPROVED) = [] := by
        simp [List.filter, hextra]
      rw [this, List.append_nil]
    constructor <;> simp [create_correction, hsame]

/-- C4 witness: over a store holding one APPROVED "1.0" correction, the
next correction for the same field gets version "1.1" and links id 1. -/
theorem correction_versioning_witness :
    ((create_correction
        [{ id := 1, company_id := 1, company_data_id := none,
           field_name := "legal_name", field_type := "legal_name",
           old_value := none, new_value := "A", correction_reason := none,
           corrected_by := 7, status := CorrectionStatus.APPROVED,
           version := "1.0", previous_correction_id := none,
           approved_by := some 8, approved_at := some 2, created_at := 1 }]
        1 "legal_name" "legal_name" none "B" none 7 none 2 5).2.version =
      toString (1 : ℤ) ++ "." ++ toString ((0 : ℤ) + 1) ∧
     (create_correction
        [{ id := 1, company_id := 1, company_data_id := none,
           field_name := "legal_name", field_type := "legal_name",
           old_value := none, new_value := "A", correction_reason := none,
           corrected_by := 7, status := CorrectionStatus.APPROVED,
           version := "1.0", previous_correction_id := none,
           approved_by := some 8, approved_at := some 2, created_at := 1 }]
        1 "legal_name" "legal_name" none "B" none 7 none 2 5).2.previous_correction_id =
      some 1) :=
  (correction_versioning _ 1 "legal_name" "legal_name" none "B" none 7 none 2 5).2.1
    _ 1 0 (by rfl) (by rfl)

/-- C5: approving a non-PENDING correction returns the conflict error with
the store untouched; approving a PENDING correction returns it APPROVED and,
in the same returned state, the company attribute named by its `field_type`
holds `new_value` and the linked data point holds `new_value` with
`verified = true` — the status flip and the writes land atomically in one
state. -/
theorem approve_correction_conflict_and_apply
    (st : CorrectionDb) (cid approver now : ℕ) (c : DataCorrection)
    (hfind : st.corrections.find? (fun x => x.id = cid) = some c) :
    (c.status ≠ CorrectionStatus.PENDING →
      approve_correction st cid approver now =
        (Except.error ApproveErr.correctionNotPending, st)) ∧
    (c.status = CorrectionStatus.PENDING →
      ∀ company, st.companies.find? (fun co => co.id = c.company_id) = some company →
      ∃ c2, (approve_correction st cid approver now).1 = Except.ok c2 ∧
        c2.id = c.id ∧ c2.status = CorrectionStatus.APPROVED ∧
        c2.new_value = c.new_value ∧
        (∀ x ∈ (approve_correction st cid approver now).2.corrections,
          x.id = cid → x.status = CorrectionStatus.APPROVED) ∧
        (∀ co ∈ (approve_correction st cid approver now).2.companies,
          co.id = c.company_id →
            (c.field_type = "legal_name" → co.legal_name = c.new_value) ∧
            (c.field_type = "registration_number" →
              co.registration_number = some c.new_value) ∧
            (c.field_type = "jurisdiction" → co.jurisdiction = some c.new_value) ∧
            (c.field_type = "domain" → co.domain = some c.new_value)) ∧
        (∀ did, c.company_data_id = some did →
          ∀ dp ∈ (approve_correction st cid approver now).2.company_data,
            dp.id = did → dp.field_value = c.new_value ∧ dp.verified = true)) := by
  constructor
  · intro hnp
    simp only [approve_correction, hfind]
    rw [if_pos hnp]
  · intro hp company hco
    simp only [approve_correction, hfind, hco]
    rw [if_neg (by simp [hp])]
    refine ⟨_, rfl, rfl, rfl, rfl, ?_, ?_, ?_⟩
    · intro x hx hxid
      simp only [List.mem_map] at hx
      obtain ⟨orig, _, hor⟩ := hx
      by_cases h : orig.id = cid
      · rw [if_pos h] at hor
        rw [← hor]
      · rw [if_neg h] at hor
        rw [← hor] at hxid
        exact absurd hxid h
    · intro co hco2 hcoid
      simp only [List.mem_map] at hco2
      obtain ⟨orig, _, hor⟩ := hco2
      by_cases h : orig.id = c.company_id
      · rw [if_pos h] at hor
        subst hor
        unfold applyFieldType
        refine ⟨?_, ?_, ?_, ?_⟩ <;> intro hft <;> rw [hft] <;> simp
      · rw [if_neg h] at hor
        rw [← hor] at hcoid
        exact absurd hcoid h
    · intro did hdid dp hdp hdpid
      rw [hdid] at hdp
      simp only [List.mem_map] at hdp
      obtain ⟨orig, _, hor⟩ := hdp
      by_cases h : orig.id = did
      · rw [if_pos h] at hor
        rw [← hor]
        exact ⟨rfl, rfl⟩
      · rw [if_neg h] at hor
        rw [← hor] at hdpid
        exact absurd hdpid h

/-- C5 witness: the theorem applied to a concrete store — approving an
already-APPROVED correction errors and changes nothing; approving the
PENDING one updates correction, company and data point together. -/
theorem approve_correction_witness :
    (approve_correction stApprovedEx 1 9 9 =
      (Except.error ApproveErr.correctionNotPending, stApprovedEx)) ∧
    (∃ c2, (approve_correction stPendingEx 1 9 9).1 = Except.ok c2 ∧
      c2.id = corrPendingEx.id ∧ c2.status = CorrectionStatus.APPROVED ∧
      c2.new_value = corrPendingEx.new_value ∧
      (∀ x ∈ (approve_correction stPendingEx 1 9 9).2.corrections,
        x.id = 1 → x.status = CorrectionStatus.APPROVED) ∧
      (∀ co ∈ (approve_correction stPendingEx 1 9 9).2.companies,
        co.id = corrPendingEx.company_id →
          (corrPendingEx.field_type = "legal_name" →
            co.legal_name = corrPendingEx.new_value) ∧
          (corrPendingEx.field_type = "registration_number" →
            co.registration_number = some corrPendingEx.new_value) ∧
          (corrPendingEx.field_type = "jurisdiction" →
            co.jurisdiction = some corrPendingEx.new_value) ∧
          (corrPendingEx.field_type = "domain" →
            co.domain = some corrPendingEx.new_value)) ∧
      (∀ did, corrPendingEx.company_data_id = some did →
        ∀ dp ∈ (approve_correction stPendingEx 1 9 9).2.company_data,
          dp.id = did →
            dp.field_value = corrPendingEx.new_value ∧ dp.verified = true)) :=
  ⟨(approve_correction_conflict_and_apply stApprovedEx 1 9 9 corrApprovedEx
      rfl).1 (by decide),
   (approve_correction_conflict_and_apply stPendingEx 1 9 9 corrPendingEx
      rfl).2 rfl companyEx rfl⟩

/-- C2: starting verification for a company that already has an IN_PROGRESS
run does not reuse it — the create step commits a second IN_PROGRESS run
(two at once for company 1), and after the run ends the pre-existing run is
still there untouched, never reused, beside the new terminal run. -/
theorem verify_company_duplicate_in_progress_run :
    countInProgress (startVerificationRun dbInProgEx 1 2 5).2 1 = 2 ∧
    (verify_company envFailEx dbInProgEx 1 2 5 6).2.runs =
      [runInProgEx,
       { id := 2, company_id := 1, risk_score := 0,
         risk_category := RiskCategory.LOW,
         verification_status := VStatus.FAILED,
         analysis_started_at := some 5, analysis_completed_at := some 6 }] := by
  constructor <;> rfl

/-- Updating a run id absent from a list changes nothing. -/
lemma runs_map_fresh (l : List VerificationRun) (nid : ℕ) (r1 : VerificationRun)
    (h : ∀ r ∈ l, r.id ≠ nid) :
    l.map (fun r => if r.id = nid then r1 else r) = l := by
  induction l with
  | nil => rfl
  | cons a t ih =>
    simp only [List.map_cons]
    rw [if_neg (h a (List.mem_cons_self a t)),
      ih (fun r hr => h r (List.mem_cons_of_mem a hr))]

/-- When the execute body raises, `verify_company` re-raises it and the final
state is the input state plus the new run marked FAILED with its completion
time, plus whichever data rows were committed first. -/
lemma verify_company_error_shape
    (env : ExecEnv) (db : VerificationDb)
    (company_id newRunId tStart tEnd : ℕ) (company : VCompany) (e : PyErr)
    (rows : List StoredData)
    (hfind : db.companies.find? (fun c => c.id = company_id) = some company)
    (hfresh : ∀ r ∈ db.runs, r.id ≠ newRunId)
    (hbody : runBody env company = (Except.error e, rows)) :
    verify_company env db company_id newRunId tStart tEnd =
      (Except.error e,
       { companies := db.companies
         runs := db.runs ++
           [{ id := newRunId, company_id := company_id, risk_score := 0,
              risk_category := RiskCategory.LOW,
              verification_status := VStatus.FAILED,
              analysis_started_at := some tStart,
              analysis_completed_at := some tEnd }]
         company_data := db.company_data ++ rows }) := by
  simp only [verify_company, startVerificationRun, hfind, hbody]
  rw [List.map_append]
  rw [runs_map_fresh db.runs newRunId _ hfresh]
  simp

/-- C6: for every exception escaping the execute body, `verify_company`
re-raises it and the created run ends FAILED with `analysis_completed_at`
set — never left IN_PROGRESS — and its `risk_score` is still the default 0;
no partially computed score is persisted. -/
theorem verify_company_failure_marks_failed
    (env : ExecEnv) (db : VerificationDb)
    (company_id newRunId tStart tEnd : ℕ) (company : VCompany) (e : PyErr)
    (hfind : db.companies.find? (fun c => c.id = company_id) = some company)
    (hfresh : ∀ r ∈ db.runs, r.id ≠ newRunId)
    (herr : (runBody env company).1 = Except.error e) :
    (verify_company env db company_id newRunId tStart tEnd).1 = Except.error e ∧
    ∃ rows,
      (verify_company env db company_id newRunId tStart tEnd).2.runs =
        db.runs ++
          [{ id := newRunId, company_id := company_id, risk_score := 0,
             risk_category := RiskCategory.LOW,
             verification_status := VStatus.FAILED,
             analysis_started_at := some tStart,
             analysis_completed_at := some tEnd }] ∧
      (verify_company env db company_id newRunId tStart tEnd).2.company_data =
        db.company_data ++ rows := by
  rcases hb : runBody env company with ⟨res, rows⟩
  rw [hb] at herr
  simp only at herr
  subst herr
  have := verify_company_error_shape env db company_id newRunId tStart tEnd
    company e rows hfind hfresh hb
  rw [this]
  exact ⟨rfl, rows, rfl, rfl⟩

/-- C6 witness: the theorem at a concrete state whose DNS call raises. -/
theorem verify_company_failure_marks_failed_witness :
    (verify_company envFailEx dbFreshEx 1 2 5 6).1 =
      Except.error (PyErr.external 0) ∧
    ∃ rows,
      (verify_company envFailEx dbFreshEx 1 2 5 6).2.runs =
        dbFreshEx.runs ++
          [{ id := 2, company_id := 1, risk_score := 0,
             risk_category := RiskCategory.LOW,
             verification_status := VStatus.FAILED,
             analysis_started_at := some 5,
             analysis_completed_at := some 6 }] ∧
      (verify_company envFailEx dbFreshEx 1 2 5 6).2.company_data =
        dbFreshEx.company_data ++ rows :=
  verify_company_failure_marks_failed envFailEx dbFreshEx 1 2 5 6 compEx
    (PyErr.external 0) rfl (by simp [dbFreshEx]) rfl

/-- C7 (divergence): when the AI-enrichment block raises — which happens for
every exception in the block and even for a successful collection, because
the handler references the undefined name `logger` — the `NameError` escapes
the block and the run is marked FAILED, not COMPLETED as the claim
states. -/
theorem ai_enrichment_failure_marks_run_failed
    (env : ExecEnv) (db : VerificationDb)
    (company_id newRunId tStart tEnd : ℕ) (company : VCompany) (dv : Bool)
    (hfind : db.companies.find? (fun c => c.id = company_id) = some company)
    (hfresh : ∀ r ∈ db.runs, r.id ≠ newRunId)
    (hdom : truthy company.domain = false)
    (hdns : env.dnsCall = Except.ok dv)
    (hai : aiBlockRaises env.ai = true) :
    (verify_company env db company_id newRunId tStart tEnd).1 =
      Except.error PyErr.nameError ∧
    (verify_company env db company_id newRunId tStart tEnd).2.runs =
      db.runs ++
        [{ id := newRunId, company_id := company_id, risk_score := 0,
           risk_category := RiskCategory.LOW,
           verification_status := VStatus.FAILED,
           analysis_started_at := some tStart,
           analysis_completed_at := some tEnd }] := by
  have hbody : runBody env company = (Except.error PyErr.nameError, []) := by
    simp [runBody, hdns, hdom, hai]
  have := verify_company_error_shape env db company_id newRunId tStart tEnd
    company PyErr.nameError [] hfind hfresh hbody
  rw [this]
  exact ⟨rfl, by simp⟩

/-- C7 witness: the theorem at a concrete state whose AI collection
raises. -/
theorem ai_enrichment_failure_marks_run_failed_witness :
    (verify_company envAiRaiseEx dbFreshEx 1 2 5 6).1 =
      Except.error PyErr.nameError ∧
    (verify_company envAiRaiseEx dbFreshEx 1 2 5 6).2.runs =
      dbFreshEx.runs ++
        [{ id := 2, company_id := 1, risk_score := 0,
           risk_category := RiskCategory.LOW,
           verification_status := VStatus.FAILED,
           analysis_started_at := some 5,
           analysis_completed_at := some 6 }] :=
  ai_enrichment_failure_marks_run_failed envAiRaiseEx dbFreshEx 1 2 5 6 compEx
    true rfl (by simp [dbFreshEx]) rfl rfl rfl

end SkyfiEcvi
